import Mathlib

/-!
Shallow embedding of the Preboot-Oxide PXE/DHCP co-server
(src/util.rs, src/conf.rs, src/dhcp.rs) and proofs about the
frozen claims of its specification.

Conventions of the embedding:
* Rust `HashMap` / `BTreeMap` become association lists with
  replace-on-insert semantics; `Option`/`Result` become `Option`/`Except`.
* Machine integers (`u8`, `u32`, `u64`) become `Nat`; no arithmetic in the
  modelled code can overflow on the inputs the server handles (lengths,
  XIDs and byte values are used only for comparison and formatting).
* Wall-clock times become a `Nat` tick supplied by the caller.
* Panics of the Rust code (`unwrap` on an `Err`) are modelled as `none`
  results that abort the surrounding handler without a reply.
-/

namespace PrebootOxide

/-- Either of two options, left biased: Rust `Option::or`. -/
def optOr {α : Type} (a b : Option α) : Option α :=
  match a with
  | some x => some x
  | none => b

/-- An IPv4 address as its four dotted-quad bytes. -/
structure Ipv4Addr where
  a : Nat
  b : Nat
  c : Nat
  d : Nat
deriving DecidableEq, Repr

/-- `Ipv4Addr::new(0, 0, 0, 0)`, the unspecified address. -/
def ipZero : Ipv4Addr := ⟨0, 0, 0, 0⟩

/-- DHCP message types of `dhcproto::v4::MessageType` used by the server;
every type the server's `_ =>` arm ignores is `unknown`. -/
inductive MessageType where
  | discover
  | offer
  | request
  | decline
  | ack
  | unknown (code : Nat)
deriving DecidableEq, Repr

/-- Option codes of `dhcproto::v4::OptionCode` the server touches; all
other codes are `other`. -/
inductive OptionCode where
  | subnetMask
  | addressLeaseTime
  | messageType
  | bootfileName
  | tftpServerAddress
  | serverIdentifier
  | parameterRequestList
  | classIdentifier
  | other (code : Nat)
deriving DecidableEq, Repr

/-- Decoded DHCP options of `dhcproto::v4::DhcpOption` the server touches.
`bootfileName` carries the UTF-8 string whose bytes the Rust code stores. -/
inductive DhcpOption where
  | subnetMask (ip : Ipv4Addr)
  | addressLeaseTime (secs : Nat)
  | messageType (t : MessageType)
  | bootfileName (name : String)
  | tftpServerAddress (ip : Ipv4Addr)
  | serverIdentifier (ip : Ipv4Addr)
  | parameterRequestList (codes : List OptionCode)
  | classIdentifier (bytes : List Nat)
  | other (code : Nat) (payload : List Nat)
deriving DecidableEq, Repr

/-- The `BTreeMap` key `dhcproto` derives from an option value. -/
def DhcpOption.code : DhcpOption → OptionCode
  | .subnetMask _ => .subnetMask
  | .addressLeaseTime _ => .addressLeaseTime
  | .messageType _ => .messageType
  | .bootfileName _ => .bootfileName
  | .tftpServerAddress _ => .tftpServerAddress
  | .serverIdentifier _ => .serverIdentifier
  | .parameterRequestList _ => .parameterRequestList
  | .classIdentifier _ => .classIdentifier
  | .other c _ => .other c

/-- `dhcproto::v4::DhcpOptions`: a map from option code to option,
modelled as a list holding at most one option per code. -/
def DhcpOptions := List DhcpOption
deriving DecidableEq, Repr

/-- `DhcpOptions::get`: the option stored under `code`. -/
def opts_get (code : OptionCode) : DhcpOptions → Option DhcpOption :=
  List.find? (fun o => o.code = code)

/-- `DhcpOptions::insert`: store `o` under its own code, replacing any
option already stored under that code. -/
def opts_insert (o : DhcpOption) : DhcpOptions → DhcpOptions
  | [] => [o]
  | o' :: rest =>
    if o'.code = o.code then o :: rest else o' :: opts_insert o rest

/-- `dhcproto::v4::Opcode`. -/
inductive Opcode where
  | bootRequest
  | bootReply
  | unknown (code : Nat)
deriving DecidableEq, Repr

/-- Decoded DHCPv4 message, `dhcproto::v4::Message`, restricted to the
fields the server reads or writes.  `flagsBroadcast` is the BROADCAST bit
of the flags word; `fname` the BOOTP boot-file name header field. -/
structure Message where
  opcode : Opcode := .bootRequest
  htype : Nat := 1
  xid : Nat := 0
  ciaddr : Ipv4Addr := ipZero
  yiaddr : Ipv4Addr := ipZero
  siaddr : Ipv4Addr := ipZero
  giaddr : Ipv4Addr := ipZero
  flagsBroadcast : Bool := false
  chaddr : List Nat := []
  fname : String := ""
  opts : DhcpOptions := []
deriving DecidableEq, Repr

/-- `Message::opts().msg_type()`: the `MessageType` option, when present. -/
def msg_type (m : Message) : Option MessageType :=
  match opts_get .messageType m.opts with
  | some (.messageType t) => some t
  | _ => none

/-- `DhcpOptions::has_msg_type(t)`. -/
def has_msg_type (m : Message) (t : MessageType) : Bool :=
  msg_type m = some t

/-- In-flight session keyed by XID (struct `Session` in dhcp.rs). -/
structure Session where
  client_ip : Option Ipv4Addr := none
  gateway_ip : Option Ipv4Addr := none
  ciaddr : Option Ipv4Addr := none
  subnet : Option DhcpOption := none
  lease_time : Option DhcpOption := none
  start_time : Nat
  discover_message : Option Message := none
deriving DecidableEq, Repr

/-- `HashMap::insert`: replace the value under `k` or append a new pair. -/
def assoc_put (k : Nat) (v : Session) : List (Nat × Session) → List (Nat × Session)
  | [] => [(k, v)]
  | (k', v') :: rest =>
    if k' = k then (k, v) :: rest else (k', v') :: assoc_put k v rest

/-- `QuotaMap<u32, Session>` (util.rs): a map that enforces a quota on the
number of elements. -/
structure QuotaMap where
  sessions : List (Nat × Session) := []
  max_elements : Nat
deriving DecidableEq, Repr

/-- `HashMap::len`. -/
def QuotaMap.len (m : QuotaMap) : Nat := m.sessions.length

/-- `QuotaMap::get`. -/
def QuotaMap.get (m : QuotaMap) (k : Nat) : Option Session :=
  (m.sessions.find? (fun p => p.1 = k)).map (fun p => p.2)

/-- `QuotaMap::insert`: `none` models the `bail!` quota error.  The source
rejects the insert only when the current length strictly exceeds
`max_elements`. -/
def QuotaMap.insert (m : QuotaMap) (k : Nat) (v : Session) : Option QuotaMap :=
  if m.len > m.max_elements then none
  else some { m with sessions := assoc_put k v m.sessions }

/-- `QuotaMap::remove`: the removed value (if any) and the map without `k`. -/
def QuotaMap.remove (m : QuotaMap) (k : Nat) : Option Session × QuotaMap :=
  (m.get k, { m with sessions := m.sessions.filter (fun p => ¬ p.1 = k) })

/-- A `serde_json::Value` document. -/
inductive JVal where
  | null
  | bool (b : Bool)
  | num (n : Nat)
  | str (s : String)
  | arr (xs : List JVal)
  | obj (fields : List (String × JVal))

/-- `serde_json::Value::get(key)`: member lookup on objects. -/
def jGet (v : JVal) (key : String) : Option JVal :=
  match v with
  | .obj fields => (fields.find? (fun f => f.1 = key)).map (fun f => f.2)
  | _ => none

/-- `serde_json::Value::as_u64`. -/
def as_u64 : JVal → Option Nat
  | .num n => some n
  | _ => none

mutual
/-- `serde_json::Value::to_string()`: compact JSON rendering (string
escaping beyond the quotes is not modelled; no claim evaluates it on a
string needing escapes). -/
def jvalToString : JVal → String
  | .null => "null"
  | .bool b => cond b "true" "false"
  | .num n => toString n
  | .str s => "\"" ++ s ++ "\""
  | .arr xs => "[" ++ jarrToString xs ++ "]"
  | .obj fields => "\x7b" ++ jobjToString fields ++ "\x7d"

/-- Comma-separated rendering of an array's elements. -/
def jarrToString : List JVal → String
  | [] => ""
  | [x] => jvalToString x
  | x :: y :: rest => jvalToString x ++ "," ++ jarrToString (y :: rest)

/-- Comma-separated rendering of an object's members. -/
def jobjToString : List (String × JVal) → String
  | [] => ""
  | [(k, v)] => "\"" ++ k ++ "\":" ++ jvalToString v
  | (k, v) :: f :: rest =>
    "\"" ++ k ++ "\":" ++ jvalToString v ++ "," ++ jobjToString (f :: rest)
end

/-- `ConfEntry`: one resolvable configuration (conf.rs). -/
structure ConfEntry where
  boot_file : Option String := none
  boot_server_ipv4 : Option Ipv4Addr := none
deriving DecidableEq, Repr

/-- `ConfEntry::merge`: fields of `self` win, missing ones fall back to
`other`. -/
def ConfEntry.merge (self : ConfEntry) (other_option : Option ConfEntry) : ConfEntry :=
  match other_option with
  | none => self
  | some other =>
    { boot_file := optOr self.boot_file other.boot_file
      boot_server_ipv4 := optOr self.boot_server_ipv4 other.boot_server_ipv4 }

/-- `MatchType` (conf.rs). -/
inductive MatchType where
  | any
  | all
deriving DecidableEq, Repr

/-- `MatchEntry` (conf.rs).  The Rust selector is a `HashMap`; it is
modelled as the association list in the YAML declaration order (the claims
never depend on the iteration order of a multi-key selector). -/
structure MatchEntry where
  fields_values : List (String × String)
  conf : ConfEntry
  match_type : MatchType
  regex : Bool
deriving DecidableEq, Repr

/-- `Conf` (conf.rs). -/
structure Conf where
  default : Option ConfEntry := none
  ifaces : Option (List String) := none
  match_map : Option (List MatchEntry) := none
  tftp_server_dir : Option String := none
  max_sessions : Nat := 500
deriving DecidableEq, Repr

/-- `DEFAULT_MAX_SESSIONS` (conf.rs). -/
def DEFAULT_MAX_SESSIONS : Nat := 500

/-- `Conf::validate` (conf.rs): the startup validation.  Note that the
`Option::or` chains consult the `default` entry only when no `match`
section is present at all. -/
def Conf.validate (c : Conf) : Except String Unit :=
  let has_external_tftp_server :=
    (optOr (c.match_map.map (fun m => m.any (fun me => me.conf.boot_server_ipv4.isSome)))
        (c.default.map (fun d => d.boot_server_ipv4.isSome))).getD false
  let has_tftp_path := c.tftp_server_dir.isSome
  let has_boot_filename :=
    (optOr (c.match_map.map (fun m => m.any (fun me => me.conf.boot_file.isSome)))
        (c.default.map (fun d => d.boot_file.isSome))).getD false
  if !has_external_tftp_server && !has_tftp_path then
    .error "No TFTP server path or external TFTP server configured."
  else if !has_boot_filename then
    .error "No boot filename configured."
  else
    .ok ()

/-- `FIELD_MAP` (conf.rs): the synthetic-field translation. -/
def FIELD_MAP (key : String) : Option String :=
  if key = "ClientMacAddress" then some "chaddr"
  else if key = "HardwareType" then some "htype"
  else none

/-- `Conf::get_remapped_key`: `FIELD_MAP.get(key).unwrap_or(&key)`. -/
def get_remapped_key (key : String) : String :=
  (FIELD_MAP key).getD key

/-- Hex digits of `n`, uppercase, padded to width 2: `format "{:0>2X}"`. -/
def upperHexPad2 (n : Nat) : String :=
  let digits := (Nat.toDigits 16 n).map Char.toUpper
  let digits := if digits.length < 2 then '0' :: digits else digits
  String.mk digits

/-- `Conf::get_mac_from_doc_string`: the first six numbers of a JSON
array rendered as colon-separated upper-case hex; `none` models the
`anyhow` error for a value that is not an array of numbers. -/
def get_mac_from_doc_string (doc : JVal) : Option String :=
  match doc with
  | .arr xs =>
    ((xs.take 6).mapM (fun v => (as_u64 v).map upperHexPad2)).map
      (fun parts => String.intercalate ":" parts)
  | _ => none

/-- `char::try_from(u32)`: some character for a valid scalar value. -/
def charFromNat (n : Nat) : Option Char :=
  if h : n.isValidChar then some (Char.ofNatAux n h) else none

/-- The `ClassIdentifier` entry of `FIELD_CONVERTERS` (conf.rs): a JSON
byte array decoded as a character string; a non-array converts to the
empty string; `none` models the error for an invalid character (a
non-number array item converts as `char` 0, per `as_u64().unwrap_or(0)`). -/
def class_identifier_string (v : JVal) : Option String :=
  match v with
  | .arr xs => (xs.mapM (fun item => charFromNat ((as_u64 item).getD 0))).map String.mk
  | _ => some ""

/-- The converted document value the matcher compares: the registered
converter for the selector key when there is one, with
`unwrap_or(doc_value.to_string())` on its error, else the default
`to_string` converter. -/
def converted_doc_value (cfg_key : String) (doc_value : JVal) : String :=
  let registered : Option String :=
    if cfg_key = "ClientMacAddress" then get_mac_from_doc_string doc_value
    else if cfg_key = "ClassIdentifier" then class_identifier_string doc_value
    else some (jvalToString doc_value)
  registered.getD (jvalToString doc_value)

/-- Compiled pattern of the external `regex` crate.  The model covers
exactly the patterns this development evaluates: metacharacter-free
literals, optionally anchored by a leading `^`.  Any pattern holding a
regex metacharacter is outside the model and treated as failing to
compile; of the two patterns the claims evaluate, `^PXEClient` is a
valid anchored literal and `(` is genuinely rejected by `Regex::new`
(an unclosed group). -/
structure RegexPat where
  anchoredStart : Bool
  lit : List Char
deriving DecidableEq, Repr

/-- Is `c` a regex metacharacter (`( ) [ ] \x7b \x7d | * + ? . \ $`)? -/
def regexMeta (c : Char) : Bool :=
  c.toNat ∈ [40, 41, 91, 93, 123, 125, 124, 42, 43, 63, 46, 92, 36]

/-- `regex::Regex::new`, restricted as documented on `RegexPat`. -/
def regexNew (pat : String) : Option RegexPat :=
  match pat.toList with
  | '^' :: rest => if rest.any regexMeta then none else some ⟨true, rest⟩
  | cs => if cs.any regexMeta then none else some ⟨false, cs⟩

/-- Does `needle` occur as a contiguous subsequence of `hay`? -/
def containsSeq (needle : List Char) : List Char → Bool
  | [] => needle.isEmpty
  | c :: rest => needle.isPrefixOf (c :: rest) || containsSeq needle rest

/-- `Regex::is_match`: an anchored literal must begin the text, an
unanchored one may occur anywhere. -/
def regexIsMatch (r : RegexPat) (s : String) : Bool :=
  if r.anchoredStart then r.lit.isPrefixOf s.toList else containsSeq r.lit s.toList

/-- The document lookup both arms of `Conf::is_match` perform for one
selector key: the (field-map remapped) key as a top-level member, falling
back to `doc["opts"][key][key]`. -/
def locate_doc_value (doc : JVal) (key : String) : Option JVal :=
  optOr (jGet doc (get_remapped_key key))
    ((jGet doc "opts").bind (fun opts => (jGet opts key).bind (fun opts_key => jGet opts_key key)))

/-- The closure `matcher` of `Conf::is_match` applied to a located
document value: convert, then compare by regex (`none` models the panic
of `Regex::new(cfg_value).unwrap()` on an invalid pattern) or equality. -/
def matcher_eval (entry : MatchEntry) (cfg_key cfg_value : String) (doc_value : JVal) : Option Bool :=
  let converted := converted_doc_value cfg_key doc_value
  if entry.regex then (regexNew cfg_value).map (fun re => regexIsMatch re converted)
  else some (converted == cfg_value)

/-- One selector pair of `Conf::is_match`:
`lookup.map(matcher).unwrap_or(false)`. -/
def pair_matches (doc : JVal) (entry : MatchEntry) (kv : String × String) : Option Bool :=
  match locate_doc_value doc kv.1 with
  | none => some false
  | some v => matcher_eval entry kv.1 kv.2 v

/-- `Iterator::any` over selector pairs, short-circuiting and
propagating a matcher panic. -/
def any_matches (doc : JVal) (entry : MatchEntry) : List (String × String) → Option Bool
  | [] => some false
  | kv :: rest =>
    match pair_matches doc entry kv with
    | none => none
    | some true => some true
    | some false => any_matches doc entry rest

/-- `Iterator::all` over selector pairs, short-circuiting and
propagating a matcher panic. -/
def all_matches (doc : JVal) (entry : MatchEntry) : List (String × String) → Option Bool
  | [] => some true
  | kv :: rest =>
    match pair_matches doc entry kv with
    | none => none
    | some false => some false
    | some true => all_matches doc entry rest

/-- `Conf::is_match` (conf.rs): `none` models a matcher panic. -/
def is_match (doc : JVal) (entry : MatchEntry) : Option Bool :=
  match entry.match_type with
  | .any => any_matches doc entry entry.fields_values
  | .all => all_matches doc entry entry.fields_values

/-- `Iterator::find(is_match)` over the declared rules: the first rule
that matches, `none` for a matcher panic. -/
def find_match (doc : JVal) : List MatchEntry → Option (Option MatchEntry)
  | [] => some none
  | e :: rest =>
    match is_match doc e with
    | none => none
    | some true => some (some e)
    | some false => find_match doc rest

/-- `Conf::get_from_doc` (conf.rs): the first matching rule's entry, else
the default entry, merged over the default entry; the outer `none` models
a matcher panic (the Rust signature's `Result` error is never produced). -/
def Conf.get_from_doc (c : Conf) (doc : JVal) : Option (Option ConfEntry) :=
  let found : Option (Option ConfEntry) :=
    match c.match_map with
    | none => some none
    | some ms => (find_match doc ms).map (fun r => r.map (fun e => e.conf))
  found.map (fun m => (optOr m c.default).map (fun cfg => cfg.merge c.default))

/-- `Conf::get_max_sessions`. -/
def Conf.get_max_sessions (c : Conf) : Nat := c.max_sessions

/-- A `yaml_rust2::Yaml` value, restricted to the shapes the loader
reads; `badValue` is what indexing a missing key yields. -/
inductive Yaml where
  | str (s : String)
  | int (n : Int)
  | bool (b : Bool)
  | arr (xs : List Yaml)
  | hash (fields : List (Yaml × Yaml))
  | badValue

/-- Is this YAML value the string `s`?  (Hash keys in the loader are
compared against `Yaml::from_str(<literal>)`, always a string here.) -/
def Yaml.isStr (y : Yaml) (s : String) : Bool :=
  match y with
  | .str s' => s' = s
  | _ => false

/-- `yaml[key]` indexing: hash lookup, `BadValue` when absent. -/
def Yaml.get (y : Yaml) (key : String) : Yaml :=
  match y with
  | .hash fields => ((fields.find? (fun f => f.1.isStr key)).map (fun f => f.2)).getD .badValue
  | _ => .badValue

/-- `Yaml::as_str`. -/
def Yaml.as_str : Yaml → Option String
  | .str s => some s
  | _ => none

/-- `Yaml::as_bool`. -/
def Yaml.as_bool : Yaml → Option Bool
  | .bool b => some b
  | _ => none

/-- `Yaml::as_hash`. -/
def Yaml.as_hash : Yaml → Option (List (Yaml × Yaml))
  | .hash fields => some fields
  | _ => none

/-- Decimal digits to a number, `none` on a non-digit. -/
def decimalNat (cs : List Char) : Option Nat :=
  cs.foldlM (fun acc c => if c.isDigit then some (acc * 10 + (c.toNat - 48)) else none) 0

/-- Split a character list on `.`. -/
def splitDot : List Char → List (List Char)
  | [] => [[]]
  | '.' :: rest => [] :: splitDot rest
  | c :: rest =>
    match splitDot rest with
    | [] => [[c]]
    | g :: gs => (c :: g) :: gs

/-- One dotted-quad component per `Ipv4Addr::from_str`: decimal, at most
255, no leading zero. -/
def ipv4Octet (cs : List Char) : Option Nat :=
  match decimalNat cs with
  | none => none
  | some n =>
    if cs.length = 0 then none
    else if cs.length > 1 && cs.head? = some '0' then none
    else if n > 255 then none
    else some n

/-- `std::net::Ipv4Addr::from_str`. -/
def ipv4FromStr (s : String) : Option Ipv4Addr :=
  match (splitDot s.toList).mapM ipv4Octet with
  | some [a, b, c, d] => some ⟨a, b, c, d⟩
  | _ => none

/-- `Conf::base_conf_from_yaml` (conf.rs): `ok none` for a non-hash,
an error only for an unparsable `boot_server_ipv4`. -/
def base_conf_from_yaml (yaml_conf : Yaml) : Except String (Option ConfEntry) :=
  match yaml_conf.as_hash with
  | none => .ok none
  | some yaml_obj =>
    let boot_file := ((yaml_obj.find? (fun f => f.1.isStr "boot_file")).map
      (fun f => f.2.as_str)).bind id
    match (yaml_obj.find? (fun f => f.1.isStr "boot_server_ipv4")).map (fun f => f.2) with
    | none => .ok (some { boot_file, boot_server_ipv4 := none })
    | some v =>
      match v.as_str with
      | none => .ok (some { boot_file, boot_server_ipv4 := none })
      | some s =>
        match ipv4FromStr s with
        | none => .error "IPv4 parsing error"
        | some ip => .ok (some { boot_file, boot_server_ipv4 := some ip })

/-- `str::to_lowercase`, on the ASCII range the loader compares. -/
def strToLower (s : String) : String :=
  String.mk (s.toList.map Char.toLower)

/-- `Conf::match_entry_from_yaml` (conf.rs): one `match` rule from YAML.
Note that the `regex` flag is read as a plain boolean and the selector
values are kept as uncompiled strings: no regex compilation happens
during loading. -/
def match_entry_from_yaml (item : Yaml) : Except String MatchEntry := do
  let conf ←
    match base_conf_from_yaml (item.get "conf") with
    | .error e => .error e
    | .ok none => .error "No configuration found for match entry"
    | .ok (some c) => .ok c
  let match_type ←
    match (item.get "match_type").as_str with
    | none => .ok MatchType.all
    | some s =>
      if strToLower s = "any" then .ok MatchType.any
      else if strToLower s = "all" then .ok MatchType.all
      else .error ("Invalid match type: " ++ s)
  let fields_values ←
    match (item.get "select").as_hash with
    | none => .error "Expected a hash for select"
    | some yaml_obj =>
      yaml_obj.mapM (fun kv =>
        match kv.1.as_str, kv.2.as_str with
        | some k, some v => Except.ok (k, v)
        | none, _ => Except.error "Expected a string key"
        | _, none => Except.error "Expected a string value")
  let regex := ((item.get "regex").as_bool).getD false
  .ok { conf, fields_values, match_type, regex }

/-- `DhcpMsgWrapper::requests_boot_info` (dhcp.rs): the
ParameterRequestList option exists and contains BootfileName. -/
def requests_boot_info (m : Message) : Bool :=
  match opts_get .parameterRequestList m.opts with
  | some (.parameterRequestList params) => params.contains OptionCode.bootfileName
  | _ => false

/-- `DhcpMsgWrapper::client_mac_address`: the first six bytes of chaddr,
when chaddr holds at least six. -/
def client_mac_address (m : Message) : Option (List Nat) :=
  if m.chaddr.length ≥ 6 then some (m.chaddr.take 6) else none

/-- `DhcpMsgWrapper::set_src_ipv4`: insert ServerIdentifier and set
siaddr to the interface address. -/
def set_src_ipv4 (src_ipv4 : Ipv4Addr) (m : Message) : Message :=
  { m with opts := opts_insert (.serverIdentifier src_ipv4) m.opts, siaddr := src_ipv4 }

/-- `DhcpMsgWrapper::set_boot_info_from_conf` (dhcp.rs): insert
BootfileName, TFTPServerAddress and ServerIdentifier, and set the header
siaddr/fname; `none` models either `anyhow` error (no boot file in the
entry, or no TFTP address resolvable). -/
def set_boot_info_from_conf (conf : ConfEntry) (my_ipv4 : Option Ipv4Addr) (m : Message) :
    Option Message :=
  match conf.boot_file with
  | none => none
  | some boot_filename =>
    match optOr conf.boot_server_ipv4 my_ipv4 with
    | none => none
    | some tfpt_srv_addr =>
      some { m with
        opts := opts_insert (.serverIdentifier tfpt_srv_addr)
          (opts_insert (.tftpServerAddress tfpt_srv_addr)
            (opts_insert (.bootfileName boot_filename) m.opts)),
        siaddr := tfpt_srv_addr,
        fname := boot_filename }

/-- `DhcpMsgWrapper::should_handle` (dhcp.rs): the admission filter. -/
def should_handle (m : Message) : Bool :=
  let has_boot_file_name := (opts_get .bootfileName m.opts).isSome
  let is_request := has_msg_type m .request
  let is_offer := has_msg_type m .offer
  let is_ack := has_msg_type m .ack
  let is_discover := has_msg_type m .discover
  let is_offer_without_boot := !has_boot_file_name && is_offer
  is_offer_without_boot || is_request || is_ack || is_discover

/-- The serde name of an option code (`dhcproto` serializes the
`OptionCode` map key of `DhcpOptions` as the variant name). -/
def code_name : OptionCode → String
  | .subnetMask => "SubnetMask"
  | .addressLeaseTime => "AddressLeaseTime"
  | .messageType => "MessageType"
  | .bootfileName => "BootfileName"
  | .tftpServerAddress => "TFTPServerAddress"
  | .serverIdentifier => "ServerIdentifier"
  | .parameterRequestList => "ParameterRequestList"
  | .classIdentifier => "ClassIdentifier"
  | .other _ => "Unknown"

/-- The serde name of a message type. -/
def message_type_name : MessageType → String
  | .discover => "Discover"
  | .offer => "Offer"
  | .request => "Request"
  | .decline => "Decline"
  | .ack => "Ack"
  | .unknown _ => "Unknown"

/-- Dotted-quad rendering of an address (serde serializes
`std::net::Ipv4Addr` as its display string). -/
def ipv4ToString (ip : Ipv4Addr) : String :=
  toString ip.a ++ "." ++ toString ip.b ++ "." ++ toString ip.c ++ "." ++ toString ip.d

/-- The serde payload of one option value (externally tagged enum
content). -/
def option_payload : DhcpOption → JVal
  | .subnetMask ip => .str (ipv4ToString ip)
  | .addressLeaseTime secs => .num secs
  | .messageType t => .str (message_type_name t)
  | .bootfileName name => .arr (name.toList.map (fun c => .num c.toNat))
  | .tftpServerAddress ip => .str (ipv4ToString ip)
  | .serverIdentifier ip => .str (ipv4ToString ip)
  | .parameterRequestList codes => .arr (codes.map (fun c => .str (code_name c)))
  | .classIdentifier bytes => .arr (bytes.map (fun b => .num b))
  | .other _ payload => .arr (payload.map (fun b => .num b))

/-- `serde_json::to_value` of a decoded message (the document the Config
Matcher consumes): top-level members for the header fields and an "opts"
object mapping each option-code name to the externally tagged option,
so that `doc["opts"][name][name]` is the option's payload. -/
def message_to_doc (m : Message) : JVal :=
  .obj [
    ("opcode", .str (match m.opcode with
      | .bootRequest => "BootRequest"
      | .bootReply => "BootReply"
      | .unknown _ => "Unknown")),
    ("htype", .num m.htype),
    ("xid", .num m.xid),
    ("flags", .num (cond m.flagsBroadcast 32768 0)),
    ("ciaddr", .str (ipv4ToString m.ciaddr)),
    ("yiaddr", .str (ipv4ToString m.yiaddr)),
    ("siaddr", .str (ipv4ToString m.siaddr)),
    ("giaddr", .str (ipv4ToString m.giaddr)),
    ("chaddr", .arr (m.chaddr.map (fun b => .num b))),
    ("fname", .str m.fname),
    ("opts", .obj (m.opts.map (fun o =>
      (code_name o.code, .obj [(code_name o.code, option_payload o)]))))]

/-- The Discover arm of `DhcpServer::handle_dhcp_message` (dhcp.rs):
remove any session for the XID (keeping the removed one, else a fresh
one started now), store the message as its `discover_message`, insert it
back quota-checked; never reply. -/
def handle_discover (now : Nat) (sessions : QuotaMap) (msg : Message) :
    QuotaMap × Option Message :=
  if !requests_boot_info msg then (sessions, none)
  else
    let (removed, sessions') := sessions.remove msg.xid
    let session := removed.getD { start_time := now }
    let session := { session with discover_message := some msg }
    match sessions'.insert msg.xid session with
    | none => (sessions', none)
    | some inserted => (inserted, none)

/-- The Offer arm of `DhcpServer::handle_dhcp_message` (dhcp.rs): enrich
the XID's session from the offer, then clone the offer, stamp the
interface address and the matched configuration's boot info on it and
emit it; no session means no reply and no state change. -/
def handle_offer (self_ipv4 : Ipv4Addr) (conf : Conf) (sessions : QuotaMap) (msg : Message) :
    QuotaMap × Option Message :=
  match sessions.get msg.xid with
  | none => (sessions, none)
  | some session =>
    let session := { session with
      client_ip := some msg.yiaddr,
      subnet := opts_get .subnetMask msg.opts,
      lease_time := opts_get .addressLeaseTime msg.opts,
      gateway_ip := some msg.giaddr,
      ciaddr := some msg.ciaddr }
    let sessions' := { sessions with sessions := assoc_put msg.xid session sessions.sessions }
    match session.discover_message with
    | none => (sessions', none)
    | some initial_discover_msg =>
      match conf.get_from_doc (message_to_doc initial_discover_msg) with
      | none => (sessions', none)
      | some none => (sessions', none)
      | some (some client_cfg) =>
        match set_boot_info_from_conf client_cfg (some self_ipv4) (set_src_ipv4 self_ipv4 msg) with
        | none => (sessions', none)
        | some response => (sessions', some response)

/-- The Request arm of `DhcpServer::handle_dhcp_message` (dhcp.rs): build
a fresh ACK out of the XID's session, stamp the interface address and the
matched configuration's boot info on it and emit it; no session means no
reply. -/
def handle_request (self_ipv4 : Ipv4Addr) (conf : Conf) (sessions : QuotaMap) (msg : Message) :
    QuotaMap × Option Message :=
  match sessions.get msg.xid with
  | none => (sessions, none)
  | some session =>
    match client_mac_address msg with
    | none => (sessions, none)
    | some mac =>
      let opts : DhcpOptions :=
        opts_insert (session.lease_time.getD (.addressLeaseTime 60))
          (opts_insert (session.subnet.getD (.subnetMask ⟨255, 255, 255, 0⟩))
            (opts_insert (.messageType .ack) []))
      let ack : Message :=
        { flagsBroadcast := true,
          yiaddr := session.client_ip.getD ipZero,
          giaddr := session.gateway_ip.getD ipZero,
          ciaddr := session.ciaddr.getD ipZero,
          opcode := .bootReply,
          opts := opts,
          chaddr := mac,
          xid := msg.xid }
      match conf.get_from_doc (message_to_doc msg) with
      | none => (sessions, none)
      | some none => (sessions, none)
      | some (some client_cfg) =>
        match set_boot_info_from_conf client_cfg (some self_ipv4) (set_src_ipv4 self_ipv4 ack) with
        | none => (sessions, none)
        | some response => (sessions, some response)

/-- `DhcpServer::handle_dhcp_message` (dhcp.rs) for one decoded message:
the resulting session table and the reply broadcast on the receiving
interface, `none` when the message is dropped (either silently or by a
surfaced error).  The early failures of the Rust handler — no message
type, a chaddr shorter than six bytes, the admission filter — drop the
message before any branch runs. -/
def handle_dhcp_message (self_ipv4 : Ipv4Addr) (now : Nat) (conf : Conf)
    (sessions : QuotaMap) (msg : Message) : QuotaMap × Option Message :=
  match msg_type msg with
  | none => (sessions, none)
  | some t =>
    match client_mac_address msg with
    | none => (sessions, none)
    | some _ =>
      if !should_handle msg then (sessions, none)
      else
        match t with
        | .discover => handle_discover now sessions msg
        | .offer => handle_offer self_ipv4 conf sessions msg
        | .request => handle_request self_ipv4 conf sessions msg
        | .decline => ((sessions.remove msg.xid).2, none)
        | .ack => ((sessions.remove msg.xid).2, none)
        | .unknown _ => (sessions, none)

/-! Concrete inputs used by the counterexamples and witnesses. -/

/-- A session holding nothing but its start time. -/
def blankSession : Session := { start_time := 0 }

/-- A session table at its quota: 2 entries, `max_elements = 2`. -/
def quotaFull : QuotaMap :=
  { sessions := [(1, blankSession), (2, blankSession)], max_elements := 2 }

/-- An empty session table with the default quota. -/
def sessionsEmpty : QuotaMap := { max_elements := 500 }

/-- The bytes of a PXE vendor class identifier (DHCP option 60). -/
def pxeClassBytes : List Nat := "PXEClient:Arch:00000:UNDI:002001".toList.map Char.toNat

/-- A PXE DISCOVER: XID 0xAABBCCDD, MAC 00:11:22:33:44:55, a
ParameterRequestList asking for BootfileName, and option 60 starting
with "PXEClient". -/
def discoverPxe : Message :=
  { xid := 2864434397,
    chaddr := [0, 17, 34, 51, 68, 85, 0, 0, 0, 0, 0, 0, 0, 0, 0, 0],
    opts := [.messageType .discover,
             .parameterRequestList [.bootfileName],
             .classIdentifier pxeClassBytes] }

/-- The spec's scenario (3) rule: ClassIdentifier matching `^PXEClient`
by regex, `match_type: any`, boot file `/bios.0`. -/
def pxeRule : MatchEntry :=
  { fields_values := [("ClassIdentifier", "^PXEClient")],
    conf := { boot_file := some "/bios.0" },
    match_type := .any,
    regex := true }

/-- A configuration holding only the `pxeRule` match rule. -/
def confPxe : Conf := { match_map := some [pxeRule] }

/-- A configuration whose default entry resolves a boot file while its
single match rule carries only a boot server address. -/
def confC3 : Conf :=
  { default := some { boot_file := some "/pxelinux.0" },
    match_map := some [{ fields_values := [("HardwareType", "1")],
                         conf := { boot_server_ipv4 := some ⟨10, 0, 0, 2⟩ },
                         match_type := .all, regex := false }] }

/-- A YAML match rule whose selector value `(` is not a valid regular
expression although `regex: true` is set. -/
def yamlBadRegex : Yaml :=
  .hash [(.str "conf", .hash [(.str "boot_file", .str "/a")]),
         (.str "select", .hash [(.str "ClassIdentifier", .str "(")]),
         (.str "regex", .bool true)]

/-- The rule `match_entry_from_yaml` produces for `yamlBadRegex`. -/
def entryBadRegex : MatchEntry :=
  { fields_values := [("ClassIdentifier", "(")],
    conf := { boot_file := some "/a" },
    match_type := .all,
    regex := true }

/-- A default-only configuration naming an external TFTP server
10.0.0.9, distinct from the receiving interface's address 10.0.0.2. -/
def confExternal : Conf :=
  { default := some { boot_file := some "/pxelinux.0", boot_server_ipv4 := some ⟨10, 0, 0, 9⟩ } }

/-- A session table holding the PXE DISCOVER's session. -/
def sessionsAfterDiscover : QuotaMap :=
  { sessions := [(2864434397, { start_time := 3, discover_message := some discoverPxe })],
    max_elements := 500 }

/-- The authoritative server's OFFER answering `discoverPxe`. -/
def offerAuthoritative : Message :=
  { xid := 2864434397,
    yiaddr := ⟨10, 0, 0, 100⟩,
    chaddr := [0, 17, 34, 51, 68, 85, 0, 0, 0, 0, 0, 0, 0, 0, 0, 0],
    opts := [.messageType .offer, .subnetMask ⟨255, 255, 255, 0⟩, .addressLeaseTime 3600] }

/-- The table produced by handling `offerAuthoritative`. -/
def tableAfterOffer : QuotaMap :=
  (handle_dhcp_message ⟨10, 0, 0, 2⟩ 7 confExternal sessionsAfterDiscover offerAuthoritative).1

/-- The OFFER reply emitted for `offerAuthoritative`. -/
def replyOffer : Message :=
  ((handle_dhcp_message ⟨10, 0, 0, 2⟩ 7 confExternal sessionsAfterDiscover offerAuthoritative).2).getD
    { }

/-- A fully enriched earlier session for XID 0xAABBCCDD. -/
def oldSessionC7 : Session :=
  { client_ip := some ⟨10, 0, 0, 100⟩,
    gateway_ip := some ⟨10, 0, 0, 1⟩,
    ciaddr := some ⟨10, 0, 0, 100⟩,
    subnet := some (.subnetMask ⟨255, 255, 255, 0⟩),
    lease_time := some (.addressLeaseTime 3600),
    start_time := 5,
    discover_message := some { xid := 2864434397, opts := [.messageType .discover] } }

/-- A session table holding `oldSessionC7`. -/
def sessionsC7 : QuotaMap :=
  { sessions := [(2864434397, oldSessionC7)], max_elements := 500 }

/-- The client's REQUEST following the offer. -/
def requestPxe : Message :=
  { xid := 2864434397,
    chaddr := [0, 17, 34, 51, 68, 85, 0, 0, 0, 0, 0, 0, 0, 0, 0, 0],
    opts := [.messageType .request, .parameterRequestList [.bootfileName]] }

/-- The table produced by handling `requestPxe` against `tableAfterOffer`. -/
def tableAfterRequest : QuotaMap :=
  (handle_dhcp_message ⟨10, 0, 0, 2⟩ 9 confExternal tableAfterOffer requestPxe).1

/-- The ACK reply emitted for `requestPxe`. -/
def replyAck : Message :=
  ((handle_dhcp_message ⟨10, 0, 0, 2⟩ 9 confExternal tableAfterOffer requestPxe).2).getD { }

/-- The session `tableAfterOffer` holds for XID 0xAABBCCDD. -/
def sessionAfterOffer : Session :=
  (tableAfterOffer.get 2864434397).getD blankSession

/-- The selector lookup as the spec words it: consult the field-map
translation of the selector key first, fall back to the raw field name,
and look the resulting key up as a top-level member of the document
before falling back to the "opts" sub-document (where the externally
tagged option nests its payload under the option name again). -/
def locate_doc_value_spec (doc : JVal) (key : String) : Option JVal :=
  let lookup_key : String :=
    match FIELD_MAP key with
    | some translated => translated
    | none => key
  match jGet doc lookup_key with
  | some v => some v
  | none => (jGet doc "opts").bind (fun opts => (jGet opts key).bind (fun opts_key => jGet opts_key key))

/-! Helper lemmas. -/

theorem optOr_some_right {α : Type} (a : Option α) (x : α) :
    optOr a (some x) = some (a.getD x) := by
  cases a <;> rfl

theorem opts_get_insert (o : DhcpOption) (c : OptionCode) :
    ∀ l : DhcpOptions, opts_get c (opts_insert o l) = if o.code = c then some o else opts_get c l := by
  intro l
  induction l with
  | nil => by_cases hc : o.code = c <;> simp [opts_insert, opts_get, hc]
  | cons hd tl ih =>
    by_cases h : hd.code = o.code
    · by_cases hc : o.code = c <;> simp [opts_insert, opts_get, h, hc]
    · by_cases hc : o.code = c <;> by_cases hh : hd.code = c <;>
        simp_all [opts_insert, opts_get]

theorem find_assoc_put (k : Nat) (v : Session) :
    ∀ l, (assoc_put k v l).find? (fun p => p.1 = k) = some (k, v) := by
  intro l
  induction l with
  | nil => simp [assoc_put]
  | cons hd tl ih =>
    by_cases h : hd.1 = k
    · simp [assoc_put, h]
    · simp [assoc_put, h, ih]

theorem boot_info_has_bootfile (cfg : ConfEntry) (ip : Option Ipv4Addr) (m resp : Message)
    (h : set_boot_info_from_conf cfg ip m = some resp) :
    (opts_get .bootfileName resp.opts).isSome = true := by
  unfold set_boot_info_from_conf at h
  split at h
  · exact absurd h (by simp)
  · next bf hbf =>
    cases ho : optOr cfg.boot_server_ipv4 ip with
    | none =>
      rw [ho] at h
      exact absurd h (by simp)
    | some tftp =>
      rw [ho] at h
      simp only [Option.some.injEq] at h
      rw [← h]
      simp [opts_get_insert, DhcpOption.code]

/-! The claims. -/

/-- C1: the claim says an insert into a table that already holds
`max_sessions` entries returns a quota error and leaves the table at
`max_sessions`.  The source's guard is `len > max_elements`, so a table
at exactly its quota accepts one more insert and grows to
`max_elements + 1` entries, contradicting both the claim and the
wrapper's own stated purpose of enforcing a maximum number of
elements. -/
theorem C1_insert_at_quota_succeeds :
    quotaFull.len = quotaFull.max_elements ∧
    (quotaFull.insert 3 blankSession).map QuotaMap.len = some (quotaFull.max_elements + 1) := by
  decide

/-- C2: for every document and selector key the Config Matcher locates
the document value exactly as the spec words it (field-map translation
first, then the raw field name, then the "opts" sub-document), and the
spec's scenario (3) holds: a ClassIdentifier `^PXEClient` any-regex rule
matches a DISCOVER whose option 60 begins with "PXEClient" and resolves
boot_file "/bios.0". -/
theorem C2_selector_lookup_order_and_pxe_match :
    (∀ (doc : JVal) (key : String), locate_doc_value doc key = locate_doc_value_spec doc key) ∧
    is_match (message_to_doc discoverPxe) pxeRule = some true ∧
    confPxe.get_from_doc (message_to_doc discoverPxe)
      = some (some { boot_file := some "/bios.0" }) := by
  refine ⟨?_, by decide, by rfl⟩
  intro doc key
  cases hf : FIELD_MAP key with
  | none =>
    simp only [locate_doc_value, locate_doc_value_spec, get_remapped_key, optOr, hf, Option.getD]
    cases jGet doc key <;> rfl
  | some translated =>
    simp only [locate_doc_value, locate_doc_value_spec, get_remapped_key, optOr, hf, Option.getD]
    cases jGet doc translated <;> rfl

/-- C3 counterexample: `confC3` resolves a boot_file from its default
entry and a boot_server_ipv4 from its match rule, so the claim says
validation succeeds; `Conf::validate` rejects it, because once a `match`
section exists the default entry is consulted for neither check. -/
theorem C3_default_boot_file_shadowed :
    Conf.validate confC3 = .error "No boot filename configured." ∧
    (confC3.default.map (fun d => d.boot_file.isSome)).getD false = true ∧
    ((confC3.match_map.getD []).any (fun me => me.conf.boot_server_ipv4.isSome)) = true ∧
    confC3.tftp_server_dir = none :=
  ⟨rfl, rfl, rfl, rfl⟩

/-- C3 as amended: validation succeeds exactly when a boot_file is
present in some match rule when a match section is configured (else in
the default entry), and a tftp_server_dir is configured or a
boot_server_ipv4 is present in some match rule when a match section is
configured (else in the default entry); the default entry is never
consulted for either check while a match section exists. -/
theorem C3_validate_characterization :
    ∀ c : Conf, c.validate = .ok () ↔
      ((match c.match_map with
        | some rules => rules.any (fun me => me.conf.boot_file.isSome)
        | none =>
          match c.default with
          | some d => d.boot_file.isSome
          | none => false) = true
      ∧ (c.tftp_server_dir.isSome = true ∨
         (match c.match_map with
          | some rules => rules.any (fun me => me.conf.boot_server_ipv4.isSome)
          | none =>
            match c.default with
            | some d => d.boot_server_ipv4.isSome
            | none => false) = true)) := by
  intro c
  obtain ⟨d, i, m, tdir, ms⟩ := c
  cases m with
  | none =>
    cases d with
    | none => cases tdir <;> simp [Conf.validate, optOr]
    | some dd =>
      cases hip : dd.boot_server_ipv4.isSome <;> cases hbf : dd.boot_file.isSome <;> cases tdir <;>
        simp [Conf.validate, optOr, hip, hbf]
  | some rules =>
    cases hip : rules.any (fun me => me.conf.boot_server_ipv4.isSome) <;>
      cases hbf : rules.any (fun me => me.conf.boot_file.isSome) <;> cases tdir <;>
        simp [Conf.validate, optOr, hip, hbf]

/-- C3 witness: a configuration satisfying the characterization
validates. -/
theorem C3_validate_ok_witness : Conf.validate confExternal = .ok () :=
  (C3_validate_characterization confExternal).mpr ⟨rfl, Or.inr rfl⟩

/-- C4 counterexample: with an external boot server 10.0.0.9 configured
and interface address 10.0.0.2, the emitted OFFER's ServerIdentifier is
10.0.0.9, not the receiving interface's address as the claim states. -/
theorem C4_server_identifier_not_interface :
    ((handle_dhcp_message ⟨10, 0, 0, 2⟩ 7 confExternal sessionsAfterDiscover offerAuthoritative).2.map
      (fun r => opts_get .serverIdentifier r.opts))
      = some (some (.serverIdentifier ⟨10, 0, 0, 9⟩)) ∧
    (⟨10, 0, 0, 9⟩ : Ipv4Addr) ≠ ⟨10, 0, 0, 2⟩ :=
  ⟨rfl, by decide⟩

/-- C4 as amended: for every OFFER that reaches reply emission, the
emitted message's ServerIdentifier option and siaddr equal the resolved
configuration's boot_server_ipv4 when one is configured and the
receiving interface's IPv4 otherwise, and its BootfileName option and
fname equal the resolved configuration's boot_file. -/
theorem C4_offer_reply_boot_info :
    ∀ (self_ipv4 : Ipv4Addr) (now : Nat) (conf : Conf) (sessions : QuotaMap)
      (msg : Message) (t : QuotaMap) (r : Message),
      msg_type msg = some .offer →
      handle_dhcp_message self_ipv4 now conf sessions msg = (t, some r) →
      ∃ s d cfg bf,
        sessions.get msg.xid = some s ∧
        s.discover_message = some d ∧
        conf.get_from_doc (message_to_doc d) = some (some cfg) ∧
        cfg.boot_file = some bf ∧
        opts_get .serverIdentifier r.opts
          = some (.serverIdentifier (cfg.boot_server_ipv4.getD self_ipv4)) ∧
        r.siaddr = cfg.boot_server_ipv4.getD self_ipv4 ∧
        opts_get .bootfileName r.opts = some (.bootfileName bf) ∧
        r.fname = bf := by
  intro self now conf sessions msg t r hty hrun
  unfold handle_dhcp_message at hrun
  rw [hty] at hrun
  cases hmac : client_mac_address msg with
  | none =>
    rw [hmac] at hrun
    simp at hrun
  | some mac =>
    rw [hmac] at hrun
    cases hsh : should_handle msg with
    | false =>
      rw [hsh] at hrun
      simp at hrun
    | true =>
      rw [hsh] at hrun
      simp only [Bool.not_true, Bool.false_eq_true, if_false] at hrun
      unfold handle_offer at hrun
      cases hget : sessions.get msg.xid with
      | none =>
        rw [hget] at hrun
        simp at hrun
      | some s =>
        rw [hget] at hrun
        simp only [] at hrun
        split at hrun
        · simp at hrun
        · next d hd =>
          split at hrun
          · simp at hrun
          · simp at hrun
          · next cfg hcfg =>
            split at hrun
            · simp at hrun
            · next resp hboot =>
              simp only [Prod.mk.injEq, Option.some.injEq] at hrun
              obtain ⟨hteq, hreq⟩ := hrun
              unfold set_boot_info_from_conf at hboot
              split at hboot
              · exact absurd hboot (by simp)
              · next bf hbf =>
                rw [optOr_some_right] at hboot
                simp only [Option.some.injEq] at hboot
                refine ⟨s, d, cfg, bf, rfl, hd, hcfg, hbf, ?_, ?_, ?_, ?_⟩ <;>
                  rw [← hreq, ← hboot] <;>
                  simp [opts_get_insert, DhcpOption.code]

/-- C4 witness: the amended statement at the concrete external-server
scenario. -/
theorem C4_offer_reply_boot_info_witness :
    ∃ s d cfg bf,
      sessionsAfterDiscover.get offerAuthoritative.xid = some s ∧
      s.discover_message = some d ∧
      confExternal.get_from_doc (message_to_doc d) = some (some cfg) ∧
      cfg.boot_file = some bf ∧
      opts_get .serverIdentifier replyOffer.opts
        = some (.serverIdentifier (cfg.boot_server_ipv4.getD ⟨10, 0, 0, 2⟩)) ∧
      replyOffer.siaddr = cfg.boot_server_ipv4.getD ⟨10, 0, 0, 2⟩ ∧
      opts_get .bootfileName replyOffer.opts = some (.bootfileName bf) ∧
      replyOffer.fname = bf :=
  C4_offer_reply_boot_info ⟨10, 0, 0, 2⟩ 7 confExternal sessionsAfterDiscover offerAuthoritative
    tableAfterOffer replyOffer rfl rfl

/-- C5: the claim says a syntactically invalid regex is rejected at
configuration load.  Loading performs no regex compilation: the rule
whose pattern is the invalid `(` loads successfully, and evaluating it
at match time reaches `Regex::new("(").unwrap()`, which panics
(modelled as the `none` result of `is_match`). -/
theorem C5_invalid_regex_accepted_at_load :
    match_entry_from_yaml yamlBadRegex = .ok entryBadRegex ∧
    entryBadRegex.regex = true ∧
    regexNew "(" = none ∧
    is_match (message_to_doc discoverPxe) entryBadRegex = none :=
  ⟨rfl, rfl, rfl, rfl⟩

/-- C6: a DISCOVER that asks for BootfileName in its
ParameterRequestList (and carries a full six-byte chaddr, which every
handled message must) leaves a session keyed by its XID whose
discover_message is the received message, provided the quota-checked
insert succeeds, and produces no reply; a DISCOVER not asking for
BootfileName changes nothing and produces no reply. -/
theorem C6_discover_session_stored :
    ∀ (self_ipv4 : Ipv4Addr) (now : Nat) (conf : Conf) (sessions : QuotaMap) (msg : Message),
      msg_type msg = some .discover →
      6 ≤ msg.chaddr.length →
      ((requests_boot_info msg = true →
          (sessions.remove msg.xid).2.len ≤ sessions.max_elements →
          (handle_dhcp_message self_ipv4 now conf sessions msg).2 = none ∧
          ∃ s, (handle_dhcp_message self_ipv4 now conf sessions msg).1.get msg.xid = some s ∧
            s.discover_message = some msg)
        ∧ (requests_boot_info msg = false →
            handle_dhcp_message self_ipv4 now conf sessions msg = (sessions, none))) := by
  intro self now conf sessions msg hty hlen
  have hmac : client_mac_address msg = some (msg.chaddr.take 6) := by
    unfold client_mac_address
    rw [if_pos hlen]
  have hsh : should_handle msg = true := by
    unfold should_handle has_msg_type
    rw [hty]
    simp
  have hrun : handle_dhcp_message self now conf sessions msg = handle_discover now sessions msg := by
    unfold handle_dhcp_message
    rw [hty, hmac, hsh]
    simp
  constructor
  · intro hreq hquota
    rw [hrun]
    unfold handle_discover
    rw [hreq]
    simp only [Bool.not_true, Bool.false_eq_true, if_false]
    have hmax : (sessions.remove msg.xid).2.max_elements = sessions.max_elements := rfl
    have hnq : ¬ ((sessions.remove msg.xid).2.len > (sessions.remove msg.xid).2.max_elements) := by
      rw [hmax]
      omega
    have hins : (sessions.remove msg.xid).2.insert msg.xid
        { ((sessions.remove msg.xid).1.getD { start_time := now }) with discover_message := some msg }
        = some { (sessions.remove msg.xid).2 with
            sessions := assoc_put msg.xid
              { ((sessions.remove msg.xid).1.getD { start_time := now }) with discover_message := some msg }
              (sessions.remove msg.xid).2.sessions } := by
      unfold QuotaMap.insert
      rw [if_neg hnq]
    rw [hins]
    refine ⟨rfl,
      ⟨{ ((sessions.remove msg.xid).1.getD { start_time := now }) with discover_message := some msg },
        ?_, rfl⟩⟩
    simp [QuotaMap.get, find_assoc_put]
  · intro hreq
    rw [hrun]
    unfold handle_discover
    rw [hreq]
    simp

/-- C6 witness: the PXE DISCOVER against an empty table stores its
session and draws no reply. -/
theorem C6_discover_session_stored_witness :
    (handle_dhcp_message ⟨10, 0, 0, 2⟩ 7 confExternal sessionsEmpty discoverPxe).2 = none ∧
    ∃ s, (handle_dhcp_message ⟨10, 0, 0, 2⟩ 7 confExternal sessionsEmpty discoverPxe).1.get
        discoverPxe.xid = some s ∧
      s.discover_message = some discoverPxe :=
  (C6_discover_session_stored ⟨10, 0, 0, 2⟩ 7 confExternal sessionsEmpty discoverPxe rfl
    (by decide)).1 rfl (by decide)

/-- C7 counterexample: a duplicate DISCOVER for a session that already
holds client_ip 10.0.0.100 and start_time 5 yields a session that still
holds them — contrary to the claim, every field of the earlier session
except discover_message is carried over. -/
theorem C7_earlier_session_fields_survive :
    (handle_dhcp_message ⟨10, 0, 0, 2⟩ 99 confExternal sessionsC7 discoverPxe).1.get 2864434397
      = some { oldSessionC7 with discover_message := some discoverPxe } ∧
    oldSessionC7.client_ip = some ⟨10, 0, 0, 100⟩ ∧
    oldSessionC7.start_time = 5 :=
  ⟨rfl, rfl, rfl⟩

/-- C7 as amended: a duplicate DISCOVER for an existing XID removes the
session, reuses it as-is — keeping its start_time, client_ip,
gateway_ip, ciaddr, subnet and lease_time — and overwrites only its
discover_message with the new DISCOVER before re-inserting it. -/
theorem C7_duplicate_discover_keeps_fields :
    ∀ (self_ipv4 : Ipv4Addr) (now : Nat) (conf : Conf) (sessions : QuotaMap)
      (msg : Message) (old : Session),
      msg_type msg = some .discover →
      6 ≤ msg.chaddr.length →
      requests_boot_info msg = true →
      sessions.get msg.xid = some old →
      (sessions.remove msg.xid).2.len ≤ sessions.max_elements →
      (handle_dhcp_message self_ipv4 now conf sessions msg).1.get msg.xid
        = some { old with discover_message := some msg } ∧
      (handle_dhcp_message self_ipv4 now conf sessions msg).2 = none := by
  intro self now conf sessions msg old hty hlen hreq hget hquota
  have hmac : client_mac_address msg = some (msg.chaddr.take 6) := by
    unfold client_mac_address
    rw [if_pos hlen]
  have hsh : should_handle msg = true := by
    unfold should_handle has_msg_type
    rw [hty]
    simp
  have hrun : handle_dhcp_message self now conf sessions msg = handle_discover now sessions msg := by
    unfold handle_dhcp_message
    rw [hty, hmac, hsh]
    simp
  rw [hrun]
  unfold handle_discover
  rw [hreq]
  simp only [Bool.not_true, Bool.false_eq_true, if_false]
  have hrem : (sessions.remove msg.xid).1 = some old := hget
  rw [hrem]
  have hnq : ¬ ((sessions.remove msg.xid).2.len > (sessions.remove msg.xid).2.max_elements) := by
    have hmax : (sessions.remove msg.xid).2.max_elements = sessions.max_elements := rfl
    rw [hmax]
    omega
  have hins : (sessions.remove msg.xid).2.insert msg.xid
      { (Option.getD (some old) { start_time := now }) with discover_message := some msg }
      = some { (sessions.remove msg.xid).2 with
          sessions := assoc_put msg.xid
            { (Option.getD (some old) { start_time := now }) with discover_message := some msg }
            (sessions.remove msg.xid).2.sessions } := by
    unfold QuotaMap.insert
    rw [if_neg hnq]
  rw [hins]
  constructor
  · simp [QuotaMap.get, find_assoc_put]
  · rfl

/-- C7 witness: the amended statement at the concrete duplicate
DISCOVER. -/
theorem C7_duplicate_discover_witness :
    (handle_dhcp_message ⟨10, 0, 0, 2⟩ 99 confExternal sessionsC7 discoverPxe).1.get discoverPxe.xid
      = some { oldSessionC7 with discover_message := some discoverPxe } ∧
    (handle_dhcp_message ⟨10, 0, 0, 2⟩ 99 confExternal sessionsC7 discoverPxe).2 = none :=
  C7_duplicate_discover_keeps_fields ⟨10, 0, 0, 2⟩ 99 confExternal sessionsC7 discoverPxe
    oldSessionC7 rfl (by decide) rfl rfl (by decide)

/-- C8: every ACK emitted for a REQUEST whose XID has a live session
carries MessageType Ack, opcode BootReply, the broadcast flag and the
REQUEST's xid; its yiaddr, giaddr and ciaddr are the session's values or
0.0.0.0, its chaddr is the client MAC, and its options hold the
session's SubnetMask (default 255.255.255.0) and AddressLeaseTime
(default 60).  The session's stored subnet and lease_time options are
assumed to carry their own option codes, as every option recorded from a
decoded OFFER does. -/
theorem C8_request_ack_shape :
    ∀ (self_ipv4 : Ipv4Addr) (now : Nat) (conf : Conf) (sessions : QuotaMap)
      (msg : Message) (t : QuotaMap) (r : Message) (s : Session),
      msg_type msg = some .request →
      sessions.get msg.xid = some s →
      (∀ o, s.subnet = some o → o.code = .subnetMask) →
      (∀ o, s.lease_time = some o → o.code = .addressLeaseTime) →
      handle_dhcp_message self_ipv4 now conf sessions msg = (t, some r) →
      msg_type r = some .ack ∧
      r.opcode = .bootReply ∧
      r.flagsBroadcast = true ∧
      r.xid = msg.xid ∧
      r.yiaddr = s.client_ip.getD ipZero ∧
      r.giaddr = s.gateway_ip.getD ipZero ∧
      r.ciaddr = s.ciaddr.getD ipZero ∧
      r.chaddr = msg.chaddr.take 6 ∧
      opts_get .subnetMask r.opts = some (s.subnet.getD (.subnetMask ⟨255, 255, 255, 0⟩)) ∧
      opts_get .addressLeaseTime r.opts = some (s.lease_time.getD (.addressLeaseTime 60)) := by
  intro self now conf sessions msg t r s hty hget hsub hlea hrun
  have hsubc : (s.subnet.getD (.subnetMask ⟨255, 255, 255, 0⟩)).code = .subnetMask := by
    cases hs : s.subnet with
    | none => rfl
    | some o => exact hsub o hs
  have hleac : (s.lease_time.getD (.addressLeaseTime 60)).code = .addressLeaseTime := by
    cases hs : s.lease_time with
    | none => rfl
    | some o => exact hlea o hs
  unfold handle_dhcp_message at hrun
  rw [hty] at hrun
  cases hmac : client_mac_address msg with
  | none =>
    rw [hmac] at hrun
    simp at hrun
  | some mac =>
    have hmac6 : mac = msg.chaddr.take 6 := by
      unfold client_mac_address at hmac
      by_cases hlen : msg.chaddr.length ≥ 6
      · rw [if_pos hlen] at hmac
        exact (Option.some.injEq _ _ ▸ hmac).symm
      · rw [if_neg hlen] at hmac
        exact absurd hmac (by simp)
    rw [hmac] at hrun
    cases hsh : should_handle msg with
    | false =>
      rw [hsh] at hrun
      simp at hrun
    | true =>
      rw [hsh] at hrun
      simp only [Bool.not_true, Bool.false_eq_true, if_false] at hrun
      unfold handle_request at hrun
      rw [hget, hmac] at hrun
      simp only [] at hrun
      split at hrun
      · simp at hrun
      · simp at hrun
      · next cfg hcfg =>
        split at hrun
        · simp at hrun
        · next resp hboot =>
          simp only [Prod.mk.injEq, Option.some.injEq] at hrun
          obtain ⟨hteq, hreq⟩ := hrun
          unfold set_boot_info_from_conf at hboot
          split at hboot
          · exact absurd hboot (by simp)
          · next bf hbf =>
            rw [optOr_some_right] at hboot
            simp only [Option.some.injEq] at hboot
            subst hreq
            rw [← hboot]
            refine ⟨?_, rfl, rfl, rfl, rfl, rfl, rfl, hmac6, ?_, ?_⟩ <;>
              simp [msg_type, set_src_ipv4, opts_get_insert, hsubc, hleac] <;>
              simp [DhcpOption.code]

/-- C8 witness: the concrete REQUEST following the offer scenario. -/
theorem C8_request_ack_shape_witness :
    msg_type replyAck = some .ack ∧
    replyAck.opcode = .bootReply ∧
    replyAck.flagsBroadcast = true ∧
    replyAck.xid = requestPxe.xid ∧
    replyAck.yiaddr = sessionAfterOffer.client_ip.getD ipZero ∧
    replyAck.giaddr = sessionAfterOffer.gateway_ip.getD ipZero ∧
    replyAck.ciaddr = sessionAfterOffer.ciaddr.getD ipZero ∧
    replyAck.chaddr = requestPxe.chaddr.take 6 ∧
    opts_get .subnetMask replyAck.opts
      = some (sessionAfterOffer.subnet.getD (.subnetMask ⟨255, 255, 255, 0⟩)) ∧
    opts_get .addressLeaseTime replyAck.opts
      = some (sessionAfterOffer.lease_time.getD (.addressLeaseTime 60)) := by
  refine C8_request_ack_shape ⟨10, 0, 0, 2⟩ 9 confExternal tableAfterOffer requestPxe
    tableAfterRequest replyAck sessionAfterOffer rfl rfl ?_ ?_ rfl
  · intro o h
    have h0 : sessionAfterOffer.subnet = some (DhcpOption.subnetMask ⟨255, 255, 255, 0⟩) := rfl
    rw [h0] at h
    injection h with h1
    rw [← h1]
    rfl
  · intro o h
    have h0 : sessionAfterOffer.lease_time = some (DhcpOption.addressLeaseTime 3600) := rfl
    rw [h0] at h
    injection h with h1
    rw [← h1]
    rfl

/-- C9: an OFFER or REQUEST whose XID has no session entry is dropped
with no reply and no change to the table. -/
theorem C9_unknown_xid_dropped :
    ∀ (self_ipv4 : Ipv4Addr) (now : Nat) (conf : Conf) (sessions : QuotaMap) (msg : Message),
      (msg_type msg = some .offer ∨ msg_type msg = some .request) →
      sessions.get msg.xid = none →
      handle_dhcp_message self_ipv4 now conf sessions msg = (sessions, none) := by
  intro self now conf sessions msg hty hget
  unfold handle_dhcp_message
  rcases hty with h | h <;> rw [h] <;>
    cases hmac : client_mac_address msg <;>
    cases hsh : should_handle msg <;>
    simp [hsh, handle_offer, handle_request, hget]

/-- C9 witness: the authoritative OFFER against an empty table. -/
theorem C9_unknown_xid_dropped_witness :
    handle_dhcp_message ⟨10, 0, 0, 2⟩ 7 confExternal sessionsEmpty offerAuthoritative
      = (sessionsEmpty, none) :=
  C9_unknown_xid_dropped ⟨10, 0, 0, 2⟩ 7 confExternal sessionsEmpty offerAuthoritative
    (Or.inl rfl) rfl

/-- C10: every reply the handler emits carries a BootfileName option
(boot-info insertion adds it, and failing insertion emits nothing), and
the admission filter rejects every OFFER that carries BootfileName — so
an emitted OFFER read back from a listening socket is never
re-processed. -/
theorem C10_replies_carry_bootfile :
    (∀ (self_ipv4 : Ipv4Addr) (now : Nat) (conf : Conf) (sessions : QuotaMap)
       (msg : Message) (t : QuotaMap) (r : Message),
       handle_dhcp_message self_ipv4 now conf sessions msg = (t, some r) →
       (opts_get .bootfileName r.opts).isSome = true) ∧
    (∀ m : Message, msg_type m = some .offer →
       (opts_get .bootfileName m.opts).isSome = true →
       should_handle m = false) := by
  constructor
  · intro self now conf sessions msg t r hrun
    unfold handle_dhcp_message at hrun
    cases hty : msg_type msg with
    | none =>
      rw [hty] at hrun
      simp at hrun
    | some ty =>
      rw [hty] at hrun
      cases hmac : client_mac_address msg with
      | none =>
        rw [hmac] at hrun
        simp at hrun
      | some mac =>
        rw [hmac] at hrun
        cases hsh : should_handle msg with
        | false =>
          rw [hsh] at hrun
          simp at hrun
        | true =>
          rw [hsh] at hrun
          simp only [Bool.not_true, Bool.false_eq_true, if_false] at hrun
          cases ty with
          | discover =>
            unfold handle_discover at hrun
            cases hreq : requests_boot_info msg with
            | false =>
              rw [hreq] at hrun
              simp at hrun
            | true =>
              rw [hreq] at hrun
              simp only [Bool.not_true, Bool.false_eq_true, if_false] at hrun
              split at hrun <;> simp at hrun
          | offer =>
            unfold handle_offer at hrun
            cases hget : sessions.get msg.xid with
            | none =>
              rw [hget] at hrun
              simp at hrun
            | some s =>
              rw [hget] at hrun
              simp only [] at hrun
              split at hrun
              · simp at hrun
              · split at hrun
                · simp at hrun
                · simp at hrun
                · split at hrun
                  · simp at hrun
                  · next resp hboot =>
                    simp only [Prod.mk.injEq, Option.some.injEq] at hrun
                    obtain ⟨hteq, hreq⟩ := hrun
                    rw [← hreq]
                    exact boot_info_has_bootfile _ _ _ _ hboot
          | request =>
            unfold handle_request at hrun
            cases hget : sessions.get msg.xid with
            | none =>
              rw [hget] at hrun
              simp at hrun
            | some s =>
              rw [hget, hmac] at hrun
              simp only [] at hrun
              split at hrun
              · simp at hrun
              · simp at hrun
              · split at hrun
                · simp at hrun
                · next resp hboot =>
                  simp only [Prod.mk.injEq, Option.some.injEq] at hrun
                  obtain ⟨hteq, hreq⟩ := hrun
                  rw [← hreq]
                  exact boot_info_has_bootfile _ _ _ _ hboot
          | decline => simp at hrun
          | ack => simp at hrun
          | unknown code => simp at hrun
  · intro m hty hboot
    simp [should_handle, has_msg_type, hty, hboot]

/-- C10 witness: the emitted OFFER of the external-server scenario
carries BootfileName, and, being an OFFER with BootfileName, would be
rejected by the admission filter. -/
theorem C10_replies_carry_bootfile_witness :
    (opts_get .bootfileName replyOffer.opts).isSome = true ∧
    should_handle replyOffer = false :=
  ⟨C10_replies_carry_bootfile.1 ⟨10, 0, 0, 2⟩ 7 confExternal sessionsAfterDiscover
      offerAuthoritative tableAfterOffer replyOffer rfl,
   C10_replies_carry_bootfile.2 replyOffer rfl rfl⟩

end PrebootOxide
